import Mathlib

/-!
Shallow embedding of the review-scraping and extraction pipeline of
`prod_assistant` (`etl/data_scrapper.py`, `etl/convert_amazon_data.py`,
`etl/data_ingestion.py`), together with theorems settling the spec claims.

Side-effecting collaborators (the browser, the HTTP stream, pandas CSV I/O)
are modelled as explicit oracle parameters: a DOM item is a function from a
CSS selector to a lookup result, a page visit is a function from a URL to a
fetch outcome, the dataset streams are lists of raw records, and a CSV row
is a record of optional cell values.  Python float values are modelled as
scaled decimals `m / 10^e` (the pipeline only moves them around and renders
them; it never computes with them).
-/

namespace ProdAssistant

/-! ### Python string primitives

The Python string operations the pipeline uses (`strip`, `startswith`,
`replace` with an empty replacement, slicing), written by structural
recursion over the character list so that concrete inputs evaluate inside
the kernel. -/

/-- Python `s.strip()`: drop whitespace from both ends. -/
def strTrim (s : String) : String :=
  ⟨((s.data.dropWhile Char.isWhitespace).reverse.dropWhile Char.isWhitespace).reverse⟩

/-- Python `s.startswith(pat)`. -/
def strStartsWith (s pat : String) : Bool :=
  pat.data.isPrefixOf s.data

/-- Python `s[:n]`: the first `n` characters. -/
def strTake (s : String) (n : Nat) : String :=
  ⟨s.data.take n⟩

/-- Python `s[n:]`: all but the first `n` characters. -/
def strDrop (s : String) (n : Nat) : String :=
  ⟨s.data.drop n⟩

/-- Left-to-right removal of every non-overlapping occurrence of `pat`,
scanning past each removed occurrence; `fuel` bounds the scan (one unit per
visited position), so `fuel = l.length` removes every occurrence. -/
def removeAllAux (pat : List Char) : Nat → List Char → List Char
  | 0, l => l
  | _ + 1, [] => []
  | fuel + 1, c :: rest =>
    if pat.isPrefixOf (c :: rest) ∧ pat ≠ [] then
      removeAllAux pat fuel ((c :: rest).drop pat.length)
    else c :: removeAllAux pat fuel rest

/-- Python `s.replace(pat, "")`: remove every occurrence of `pat`. -/
def strRemove (s pat : String) : String :=
  ⟨removeAllAux pat.data s.data.length s.data⟩

/-- Outcome of `item.query_selector(selector)` followed by `el.inner_text()`
in `FlipkartScraper._get_text_safe`: the lookup can raise (`err`), return no
element (`absent`), or produce an element whose inner text is `text`. -/
inductive LookupResult where
  | err : LookupResult
  | absent : LookupResult
  | found (text : String) : LookupResult
deriving DecidableEq, Repr

/-- Whether a lookup produced an element. -/
def LookupResult.isFound : LookupResult → Bool
  | .found _ => true
  | _ => false

/-- `FlipkartScraper._get_text_safe` (data_scrapper.py lines 13-22): try each
selector in order; on the first selector whose element is present, return its
inner text stripped of surrounding whitespace; a raising or element-less
selector is skipped; if every selector misses, return "N/A". -/
def get_text_safe (item : String → LookupResult) : List String → String
  | [] => "N/A"
  | sel :: rest =>
    match item sel with
    | .found t => strTrim t
    | _ => get_text_safe item rest

/-- The field extractor as the SPEC words it (spec section 4.1): return the
first candidate whose resolved value is non-empty after trimming; a candidate
whose trimmed text is empty is also skipped.  Used only to compare against
`get_text_safe`, which is translated from the code. -/
def extractSpec (item : String → LookupResult) : List String → String
  | [] => "N/A"
  | sel :: rest =>
    match item sel with
    | .found t => if strTrim t = "" then extractSpec item rest else strTrim t
    | _ => extractSpec item rest

/-- Normalization applied to each review block in
`FlipkartScraper.get_top_reviews` (data_scrapper.py lines 70-72): take the
block text, remove every occurrence of "READ MORE", strip whitespace. -/
def normalizeReview (s : String) : String :=
  strTrim (strRemove s "READ MORE")

/-- The review-collection loop of `FlipkartScraper.get_top_reviews`
(data_scrapper.py lines 68-78), on the list of review-block texts.  `acc` is
the `reviews` list; the `seen` set always equals the set of elements of
`reviews`, so membership is tested against `acc`.  A candidate survives when
its normalized text is non-empty, unseen, and longer than 20 characters; the
loop stops as soon as `count` reviews are collected (the break is checked at
the end of every iteration, after a possible append). -/
def collectReviews (count : Nat) : List String → List String → List String
  | [], acc => acc
  | b :: rest, acc =>
    let text := normalizeReview b
    let acc' := if text ≠ "" ∧ text ∉ acc ∧ 20 < text.length then acc ++ [text] else acc
    if count ≤ acc'.length then acc' else collectReviews count rest acc'

/-- The same filter with no count cap: the full sequence of surviving
(normalized, non-empty, non-duplicate, longer-than-20) candidates in
discovery order.  Reference definition used to state the "first max_count
surviving" property. -/
def survivingReviews : List String → List String → List String
  | [], acc => acc
  | b :: rest, acc =>
    let text := normalizeReview b
    if text ≠ "" ∧ text ∉ acc ∧ 20 < text.length then
      survivingReviews rest (acc ++ [text])
    else
      survivingReviews rest acc

/-- Outcome of one product-page visit in `get_top_reviews`
(data_scrapper.py lines 42-66): either some step (navigate, popup close,
scroll, parse) raised, or the page was parsed and yielded the texts of the
matched review blocks. -/
inductive FetchOutcome where
  | raised : FetchOutcome
  | pageBlocks (blocks : List String) : FetchOutcome

/-- `FlipkartScraper.get_top_reviews` (data_scrapper.py lines 24-87).  The
browser session is the oracle `fetch`.  A URL that does not start with
"http" returns "No reviews found" before any browser work; an exception
anywhere in the visit is caught and turned into "Error fetching reviews";
otherwise the surviving reviews are joined with " || ", with "No reviews
found" when none survive. -/
def get_top_reviews (fetch : String → FetchOutcome) (product_url : String)
    (count : Nat) : String :=
  if ¬ strStartsWith product_url "http" then "No reviews found"
  else
    match fetch product_url with
    | .raised => "Error fetching reviews"
    | .pageBlocks blocks =>
      let reviews := collectReviews count blocks []
      if reviews.isEmpty then "No reviews found" else " || ".intercalate reviews

/-- One product card extracted by `scrape_flipkart_products`
(data_scrapper.py lines 147-154). -/
structure ExtractedData where
  id : String
  title : String
  rating : String
  reviews_count : String
  price : String
  link : String

/-- The per-product loop of `scrape_flipkart_products`
(data_scrapper.py lines 162-171): every extracted card yields one output row
`[id, title, rating, reviews_count, price, top_reviews]`, where
`top_reviews` comes from an independent `get_top_reviews` call on the
card's link. -/
def scrapeRows (fetch : String → FetchOutcome) (review_count : Nat)
    (extracted : List ExtractedData) : List (List String) :=
  extracted.map fun d =>
    [d.id, d.title, d.rating, d.reviews_count, d.price,
     get_top_reviews fetch d.link review_count]

/-- A loosely-typed Python value as it occurs in the streamed JSONL records
and the loaded CSV cells: a string, an integer, a float (modelled as the
scaled decimal `m / 10^e`; the pipeline never computes with floats, it only
stores and renders them), or the pandas missing-value marker NaN. -/
inductive PyVal where
  | vStr (s : String) : PyVal
  | vInt (n : Int) : PyVal
  | vFloat (m : Int) (e : Nat) : PyVal
  | vNaN : PyVal
deriving DecidableEq, Repr

/-- Decimal rendering of `n / 10^e` for `n : Nat`, matching Python `str` on
such floats: `decStr 45 1 = "4.5"`, `decStr 0 0 = "0.0"`. -/
def decStr (n : Nat) (e : Nat) : String :=
  if e = 0 then toString n ++ ".0"
  else
    let s := toString n
    let s := if s.length ≤ e then String.mk (List.replicate (e + 1 - s.length) '0') ++ s else s
    strTake s (s.length - e) ++ "." ++ strDrop s (s.length - e)

/-- Python `str()` on a `PyVal`: identity on strings, decimal rendering of
numbers, `"nan"` for the NaN marker. -/
def pyStr : PyVal → String
  | .vStr s => s
  | .vInt n => toString n
  | .vFloat m e => (if m < 0 then "-" else "") ++ decStr m.natAbs e
  | .vNaN => "nan"

/-- One raw metadata record of the streamed Amazon dataset, restricted to the
keys `stream_amazon_data` reads (convert_amazon_data.py lines 41-51); a
`none` field models an absent key (`item.get` returning `None`). -/
structure RawMetaItem where
  parent_asin : Option String
  title : Option String
  price : Option PyVal
  average_rating : Option PyVal
  rating_number : Option PyVal

/-- The per-product accumulator built by the first pass of
`stream_amazon_data` (convert_amazon_data.py lines 46-53). -/
structure ProductEntry where
  product_id : String
  product_title : String
  price : PyVal
  rating : PyVal
  total_reviews : PyVal
  reviews_list : List String
deriving DecidableEq, Repr

/-- The validity test of the first pass (convert_amazon_data.py line 45):
`if p_id and title and len(title) > 5` — the parent asin must be present and
truthy (non-empty) and the title present with more than 5 characters.
Returns the pair when valid. -/
def validParent (item : RawMetaItem) : Option (String × String) :=
  match item.parent_asin, item.title with
  | some p, some t => if p ≠ "" ∧ 5 < t.length then some (p, t) else none
  | _, _ => none

/-- The product entry built for a valid item (convert_amazon_data.py lines
46-53): price defaults to "N/A", rating to `0.0`, total_reviews to `0`, and
the reviews list starts empty. -/
def mkEntry (item : RawMetaItem) (p t : String) : ProductEntry where
  product_id := p
  product_title := t
  price := item.price.getD (.vStr "N/A")
  rating := item.average_rating.getD (.vFloat 0 0)
  total_reviews := item.rating_number.getD (.vInt 0)
  reviews_list := []

/-- `products[p_id] = entry` on the insertion-ordered dict, modelled as an
association list: an existing key keeps its position and gets the new value,
a new key is appended. -/
def insertProduct (acc : List (String × ProductEntry)) (p : String)
    (e : ProductEntry) : List (String × ProductEntry) :=
  if acc.any fun q => q.1 = p then
    acc.map fun q => if q.1 = p then (p, e) else q
  else acc ++ [(p, e)]

/-- `MAX_PRODUCTS` (convert_amazon_data.py line 7). -/
def MAX_PRODUCTS : Nat := 50

/-- The first pass of `stream_amazon_data` (convert_amazon_data.py lines
37-53): scan the metadata stream, stopping as soon as the products dict
holds `maxP` entries (the check guards every iteration), and insert an
entry for every valid item. -/
def selectProducts (maxP : Nat) :
    List RawMetaItem → List (String × ProductEntry) → List (String × ProductEntry)
  | [], acc => acc
  | item :: rest, acc =>
    if maxP ≤ acc.length then acc
    else
      match validParent item with
      | some (p, t) => selectProducts maxP rest (insertProduct acc p (mkEntry item p t))
      | none => selectProducts maxP rest acc

/-- One raw review record of the streamed dataset, restricted to the keys the
second pass reads (convert_amazon_data.py lines 79-88).  The float rating is
modelled by its rendered text (only its f-string rendering is ever used);
an absent rating renders as the default `5.0`. -/
structure RawReview where
  parent_asin : Option String
  text : Option String
  rating : Option String

/-- The formatted review string `f"{rating}⭐ {review_text[:200]}..."`
(convert_amazon_data.py line 88). -/
def fmtReview (ratingStr text : String) : String :=
  ratingStr ++ "⭐ " ++ strTake text 200 ++ "..."

/-- `products[p_id]["reviews_list"].append(txt)`: append `txt` to the
reviews list of the entry keyed `p`. -/
def addReview (prods : List (String × ProductEntry)) (p : String)
    (txt : String) : List (String × ProductEntry) :=
  prods.map fun q =>
    if q.1 = p then (q.1, { q.2 with reviews_list := q.2.reviews_list ++ [txt] }) else q

/-- The body of the second pass for one review record (convert_amazon_data.py
lines 79-89): attach the formatted review only when its parent asin is a key
of the selected dict and its text is non-empty. -/
def attachOne (prods : List (String × ProductEntry)) (rev : RawReview) :
    List (String × ProductEntry) :=
  match rev.parent_asin with
  | none => prods
  | some p =>
    if prods.any fun q => q.1 = p then
      let text := rev.text.getD ""
      if text = "" then prods
      else addReview prods p (fmtReview (rev.rating.getD "5.0") text)
    else prods

/-- `max_scan_limit` (convert_amazon_data.py line 73). -/
def max_scan_limit : Nat := 50000

/-- The indexed loop of the second pass (convert_amazon_data.py lines 75-89):
`for i, review in enumerate(ds_reviews): if i >= limit: break; ...`. -/
def attachAux (limit : Nat) (i : Nat) :
    List RawReview → List (String × ProductEntry) → List (String × ProductEntry)
  | [], prods => prods
  | r :: rest, prods =>
    if limit ≤ i then prods
    else attachAux limit (i + 1) rest (attachOne prods r)

/-- The second pass of `stream_amazon_data`: scan at most the first `limit`
review records, attaching each matching one. -/
def attachReviews (limit : Nat) (revs : List RawReview)
    (prods : List (String × ProductEntry)) : List (String × ProductEntry) :=
  attachAux limit 0 revs prods

/-- The canonical output row of `stream_amazon_data`
(convert_amazon_data.py lines 102-109). -/
structure CanonicalRecord where
  product_id : String
  product_title : String
  rating : PyVal
  total_reviews : PyVal
  price : PyVal
  top_reviews : String
deriving DecidableEq, Repr

/-- The top-reviews field assembly (convert_amazon_data.py lines 96-100):
join the first five collected reviews with " || "; if the joined string is
empty (falsy), use the sentinel. -/
def formatTopReviews (reviews_list : List String) : String :=
  let top := " || ".intercalate (reviews_list.take 5)
  if top = "" then "No detailed reviews available." else top

/-- The row built from one product entry (convert_amazon_data.py lines
95-109). -/
def assembleRow (e : ProductEntry) : CanonicalRecord where
  product_id := e.product_id
  product_title := e.product_title
  rating := e.rating
  total_reviews := e.total_reviews
  price := e.price
  top_reviews := formatTopReviews e.reviews_list

/-- `stream_amazon_data` end to end on the two streams (network I/O and CSV
writing aside): select parents, attach reviews, assemble rows. -/
def stream_amazon_data (meta : List RawMetaItem) (revs : List RawReview) :
    List CanonicalRecord :=
  (attachReviews max_scan_limit revs (selectProducts MAX_PRODUCTS meta [])).map
    fun q => assembleRow q.2

/-- One row of the loaded CSV DataFrame, restricted to the columns
`DataIngestion.transform_data` reads.  `product_id` is accessed as
`row["product_id"]` and `_load_csv` guarantees the column exists, so it is a
plain cell; the other columns are accessed with `row.get`, where `none`
models an absent column and `vNaN` a present-but-missing value. -/
structure Row where
  product_id : PyVal
  product_title : Option PyVal
  rating : Option PyVal
  total_reviews : Option PyVal
  price : Option PyVal
  top_reviews : Option PyVal

/-- `get_safe_value(val, default)` (data_ingestion.py lines 82-83) combined
with `row.get(col)`: `pd.isna` holds for `None` (absent column) and NaN, in
which case the default is returned. -/
def get_safe_value (val : Option PyVal) (default : PyVal) : PyVal :=
  match val with
  | none => default
  | some .vNaN => default
  | some v => v

/-- The document emitted for one row by `transform_data`
(data_ingestion.py lines 85-100): `page_content` plus the metadata map. -/
structure DocRecord where
  content : String
  product_id : String
  product_title : String
  rating : PyVal
  total_reviews : PyVal
  price : String
deriving DecidableEq, Repr

/-- The per-row body of `DataIngestion.transform_data` (data_ingestion.py
lines 80-101): NaN-safe defaults for rating (`0.0`), total_reviews (`0`),
price (`"N/A"`) and content (`""`); `product_title` only has the `row.get`
absent-column default `"Unknown"`; `product_id`, `product_title`, `price`
and the content are passed through `str()`. -/
def transformRow (r : Row) : DocRecord where
  content := pyStr (get_safe_value r.top_reviews (.vStr ""))
  product_id := pyStr r.product_id
  product_title := pyStr (r.product_title.getD (.vStr "Unknown"))
  rating := get_safe_value r.rating (.vFloat 0 0)
  total_reviews := get_safe_value r.total_reviews (.vInt 0)
  price := pyStr (get_safe_value r.price (.vStr "N/A"))

/-- `DataIngestion.transform_data` over the loaded rows: one document per
row. -/
def transform_data (rows : List Row) : List DocRecord :=
  rows.map transformRow

/-- The required database environment variables
(data_ingestion.py line 40). -/
def required_vars : List String :=
  ["ASTRA_DB_API_ENDPOINT", "ASTRA_DB_APPLICATION_TOKEN", "ASTRA_DB_KEYSPACE"]

/-- The two initialization-time failures of `DataIngestion`: the
`EnvironmentError` of `_load_env_variables`, carrying the list of missing
variable names, and the `FileNotFoundError` of `_get_csv_path`, carrying its
message. -/
inductive IngestError where
  | envMissing (missing : List String) : IngestError
  | fileNotFound (msg : String) : IngestError
deriving DecidableEq, Repr

/-- `DataIngestion._load_env_variables` (data_ingestion.py lines 31-48) over
an environment oracle: collect the required variables that are unset; if any
is missing raise `EnvironmentError` naming them, otherwise return the three
values. -/
def load_env_variables (env : String → Option String) :
    Except IngestError (String × String × String) :=
  let missing := required_vars.filter fun v => (env v).isNone
  if missing.isEmpty then
    .ok ((env "ASTRA_DB_API_ENDPOINT").getD "",
         (env "ASTRA_DB_APPLICATION_TOKEN").getD "",
         (env "ASTRA_DB_KEYSPACE").getD "")
  else .error (.envMissing missing)

/-- The CSV path `os.path.join(os.getcwd(), "data", "product_reviews.csv")`
(data_ingestion.py lines 54-55). -/
def csvPath (cwd : String) : String :=
  cwd ++ "/data/product_reviews.csv"

/-- `DataIngestion._get_csv_path` (data_ingestion.py lines 50-60) over a
file-existence oracle: raise `FileNotFoundError` with a remediation hint when
the prerequisite CSV is absent. -/
def get_csv_path (cwd : String) (fileExists : String → Bool) :
    Except IngestError String :=
  let p := csvPath cwd
  if fileExists p then .ok p
  else .error (.fileNotFound
    ("CSV file not found at: " ++ p ++ ". Please run the converter script first."))

/-- `DataIngestion.__init__` (data_ingestion.py lines 15-29), up to the
external collaborators (ModelLoader, pandas, config): validate the
environment first, then resolve the CSV path; either failure is raised to
the caller, before any transformation work. -/
def initDataIngestion (env : String → Option String) (cwd : String)
    (fileExists : String → Bool) :
    Except IngestError ((String × String × String) × String) :=
  match load_env_variables env with
  | .error e => .error e
  | .ok creds =>
    match get_csv_path cwd fileExists with
    | .error e => .error e
    | .ok p => .ok (creds, p)

/-! ## Theorems for the claims -/

/-- A DOM item for the C1 counterexample: selector "div.A" finds an element
whose inner text is whitespace only, "div.B" finds one with text "hello",
every other selector finds nothing. -/
def c1Item : String → LookupResult := fun s =>
  if s = "div.A" then .found "   " else if s = "div.B" then .found "hello" else .absent

/-- C1, counterexample: the claim says `_get_text_safe` returns the first
candidate whose value is non-empty after trimming, which on `c1Item` with
candidates ["div.A", "div.B"] would be "hello"; the code returns the trimmed
text of the first candidate whose element is present, here the empty string,
because it never checks non-emptiness. -/
theorem C1_counterexample :
    get_text_safe c1Item ["div.A", "div.B"] = "" ∧
    extractSpec c1Item ["div.A", "div.B"] = "hello" ∧
    ("" : String) ≠ "hello" := by
  refine ⟨by decide, by decide, by decide⟩

/-- C1, amended: `_get_text_safe` iterates the candidates in declared order
and returns the trimmed inner text of the first candidate whose element is
present — even when that trimmed text is empty; a candidate whose lookup
raises or whose element is absent is skipped, and if all candidates miss it
returns "N/A". -/
theorem C1_get_text_safe_first_found (item : String → LookupResult) :
    (∀ sels : List String, (∀ s ∈ sels, (item s).isFound = false) →
      get_text_safe item sels = "N/A") ∧
    (∀ (l1 : List String) (s : String) (l2 : List String) (t : String),
      (∀ x ∈ l1, (item x).isFound = false) → item s = .found t →
      get_text_safe item (l1 ++ s :: l2) = strTrim t) := by
  constructor
  · intro sels h
    induction sels with
    | nil => rfl
    | cons a rest ih =>
      have ha : (item a).isFound = false := h a (by simp)
      have hrest : ∀ s ∈ rest, (item s).isFound = false := fun s hs => h s (by simp [hs])
      cases hfa : item a with
      | err => simpa [get_text_safe, hfa] using ih hrest
      | absent => simpa [get_text_safe, hfa] using ih hrest
      | found t => simp [hfa, LookupResult.isFound] at ha
  · intro l1 s l2 t h1 hs
    induction l1 with
    | nil => simp [get_text_safe, hs]
    | cons a rest ih =>
      have ha : (item a).isFound = false := h1 a (by simp)
      have hrest : ∀ x ∈ rest, (item x).isFound = false := fun x hx => h1 x (by simp [hx])
      cases hfa : item a with
      | err => simpa [get_text_safe, hfa] using ih hrest
      | absent => simpa [get_text_safe, hfa] using ih hrest
      | found u => simp [hfa, LookupResult.isFound] at ha

/-- C1, witness: the amended theorem applied to `c1Item` — all-miss yields
"N/A", and the first present candidate wins. -/
theorem C1_witness :
    get_text_safe c1Item ["div.X", "div.Y"] = "N/A" ∧
    get_text_safe c1Item (["div.X"] ++ "div.B" :: []) = "hello" := by
  constructor
  · exact (C1_get_text_safe_first_found c1Item).1 ["div.X", "div.Y"] (by decide)
  · have h := (C1_get_text_safe_first_found c1Item).2 ["div.X"] "div.B" [] "hello"
      (by decide) (by decide)
    simpa using h

/-- C10: a product URL that does not start with "http" makes
`get_top_reviews` return "No reviews found" at once; the result holds for
every browser-session oracle `fetch`, so the session is never consulted (no
navigation or other side effect happens). -/
theorem C10_non_http_url_short_circuits (fetch : String → FetchOutcome)
    (url : String) (count : Nat) (h : strStartsWith url "http" = false) :
    get_top_reviews fetch url count = "No reviews found" := by
  simp [get_top_reviews, h]

/-- C10, witness: the theorem at the concrete URL "www.flipkart.com" and an
always-raising session oracle. -/
theorem C10_witness :
    get_top_reviews (fun _ => .raised) "www.flipkart.com" 2 = "No reviews found" :=
  C10_non_http_url_short_circuits (fun _ => .raised) "www.flipkart.com" 2 (by decide)

/-! ### Lemmas about the review-collection loop -/

/-- `survivingReviews` only ever appends to its accumulator. -/
theorem survivingReviews_extend (blocks : List String) :
    ∀ acc, ∃ ext, survivingReviews blocks acc = acc ++ ext := by
  induction blocks with
  | nil => intro acc; exact ⟨[], by simp [survivingReviews]⟩
  | cons b rest ih =>
    intro acc
    by_cases h : normalizeReview b ≠ "" ∧ normalizeReview b ∉ acc ∧
        20 < (normalizeReview b).length
    · obtain ⟨ext, hext⟩ := ih (acc ++ [normalizeReview b])
      refine ⟨normalizeReview b :: ext, ?_⟩
      simp only [survivingReviews, if_pos h, hext, List.append_assoc, List.cons_append,
        List.nil_append]
    · obtain ⟨ext, hext⟩ := ih acc
      exact ⟨ext, by simp only [survivingReviews, if_neg h, hext]⟩

/-- A nodup accumulator stays nodup through `survivingReviews`: appended
texts are exactly those not already present. -/
theorem survivingReviews_nodup (blocks : List String) :
    ∀ acc, acc.Nodup → (survivingReviews blocks acc).Nodup := by
  induction blocks with
  | nil => intro acc h; simpa [survivingReviews] using h
  | cons b rest ih =>
    intro acc h
    by_cases hc : normalizeReview b ≠ "" ∧ normalizeReview b ∉ acc ∧
        20 < (normalizeReview b).length
    · have : (acc ++ [normalizeReview b]).Nodup := by
        simp [List.nodup_append, h, hc.2.1]
      simpa only [survivingReviews, if_pos hc] using ih _ this
    · simpa only [survivingReviews, if_neg hc] using ih _ h

/-- Every text `survivingReviews` appends has more than 20 characters. -/
theorem survivingReviews_length_gt (blocks : List String) :
    ∀ acc, (∀ t ∈ acc, 20 < t.length) →
    ∀ t ∈ survivingReviews blocks acc, 20 < t.length := by
  induction blocks with
  | nil => intro acc h; simpa [survivingReviews] using h
  | cons b rest ih =>
    intro acc h
    by_cases hc : normalizeReview b ≠ "" ∧ normalizeReview b ∉ acc ∧
        20 < (normalizeReview b).length
    · have h' : ∀ t ∈ acc ++ [normalizeReview b], 20 < t.length := by
        intro t ht
        rcases List.mem_append.1 ht with ht | ht
        · exact h t ht
        · simpa [List.mem_singleton.1 ht] using hc.2.2
      simpa only [survivingReviews, if_pos hc] using ih _ h'
    · simpa only [survivingReviews, if_neg hc] using ih _ h

/-- `l.take n = l` when `l` is short enough. -/
theorem take_of_le_length {α : Type} (l : List α) :
    ∀ n, l.length ≤ n → l.take n = l := by
  induction l with
  | nil => intro n _; simp
  | cons a rest ih =>
    intro n h
    cases n with
    | zero => simp at h
    | succ m => simpa using ih m (by simpa using h)

/-- Taking exactly the length of the left part of an append yields it. -/
theorem take_append_self {α : Type} (l1 l2 : List α) :
    (l1 ++ l2).take l1.length = l1 := by
  induction l1 with
  | nil => simp
  | cons a rest ih => simp [ih]

/-- The capped collection loop computes the `count`-prefix of the uncapped
surviving sequence, as long as the accumulator is below the cap (which the
loop maintains from an empty start whenever `1 ≤ count`). -/
theorem collectReviews_eq_take (count : Nat) (blocks : List String) :
    ∀ acc, acc.length < count →
    collectReviews count blocks acc = (survivingReviews blocks acc).take count := by
  induction blocks with
  | nil =>
    intro acc hlt
    simp only [collectReviews, survivingReviews]
    exact (take_of_le_length acc count (le_of_lt hlt)).symm
  | cons b rest ih =>
    intro acc hlt
    by_cases h : normalizeReview b ≠ "" ∧ normalizeReview b ∉ acc ∧
        20 < (normalizeReview b).length
    · by_cases hc : count ≤ (acc ++ [normalizeReview b]).length
      · have hlen : (acc ++ [normalizeReview b]).length = count := by
          simp only [List.length_append, List.length_singleton]
          simp at hc
          omega
        obtain ⟨ext, hext⟩ := survivingReviews_extend rest (acc ++ [normalizeReview b])
        have hcoll : collectReviews count (b :: rest) acc = acc ++ [normalizeReview b] := by
          simp only [collectReviews, if_pos h, if_pos hc]
        have hsurv : survivingReviews (b :: rest) acc =
            (acc ++ [normalizeReview b]) ++ ext := by
          simp only [survivingReviews, if_pos h, hext]
        rw [hcoll, hsurv, ← hlen, take_append_self]
      · have hlt' : (acc ++ [normalizeReview b]).length < count := by omega
        have hcoll : collectReviews count (b :: rest) acc =
            collectReviews count rest (acc ++ [normalizeReview b]) := by
          simp only [collectReviews, if_pos h, if_neg hc]
        have hsurv : survivingReviews (b :: rest) acc =
            survivingReviews rest (acc ++ [normalizeReview b]) := by
          simp only [survivingReviews, if_pos h]
        rw [hcoll, hsurv]
        exact ih _ hlt'
    · have hc : ¬ count ≤ acc.length := by omega
      have hcoll : collectReviews count (b :: rest) acc =
          collectReviews count rest acc := by
        simp only [collectReviews, if_neg h, if_neg hc]
      have hsurv : survivingReviews (b :: rest) acc = survivingReviews rest acc := by
        simp only [survivingReviews, if_neg h]
      rw [hcoll, hsurv]
      exact ih _ hlt

/-- C2, counterexample: the claim quantifies over every `max_count`, but at
`max_count = 0` the loop admits the first surviving candidate before its
break check runs, so the result has one entry, exceeding `max_count`. -/
theorem C2_counterexample :
    collectReviews 0 ["aaaaaaaaaaaaaaaaaaaaa"] [] = ["aaaaaaaaaaaaaaaaaaaaa"] ∧
    ¬ (collectReviews 0 ["aaaaaaaaaaaaaaaaaaaaa"] []).length ≤ 0 := by
  refine ⟨by decide, by decide⟩

/-- C2, amended: for every `max_count ≥ 1`, the review loop returns exactly
the first `max_count` surviving (normalized, non-empty, non-duplicate,
longer-than-20) candidates in discovery order, hence no duplicates and at
most `max_count` entries.  (At `max_count = 0` the loop can still return one
entry, because the break is only checked after a possible append.) -/
theorem C2_collect_first_surviving (blocks : List String) (count : Nat)
    (h : 1 ≤ count) :
    collectReviews count blocks [] = (survivingReviews blocks []).take count ∧
    (collectReviews count blocks []).Nodup ∧
    (collectReviews count blocks []).length ≤ count := by
  have heq := collectReviews_eq_take count blocks [] (by simpa using h)
  refine ⟨heq, ?_, ?_⟩
  · rw [heq]
    exact List.Nodup.sublist (List.take_sublist _ _)
      (survivingReviews_nodup blocks [] List.nodup_nil)
  · rw [heq, List.length_take]
    exact Nat.min_le_left _ _

/-- C2, witness: the amended theorem at `max_count = 2` on four candidates
(one a duplicate). -/
theorem C2_witness :
    collectReviews 2 ["aaaaaaaaaaaaaaaaaaaaa", "aaaaaaaaaaaaaaaaaaaaa",
        "bbbbbbbbbbbbbbbbbbbbb", "ccccccccccccccccccccc"] [] =
      (survivingReviews ["aaaaaaaaaaaaaaaaaaaaa", "aaaaaaaaaaaaaaaaaaaaa",
        "bbbbbbbbbbbbbbbbbbbbb", "ccccccccccccccccccccc"] []).take 2 ∧
    (collectReviews 2 ["aaaaaaaaaaaaaaaaaaaaa", "aaaaaaaaaaaaaaaaaaaaa",
        "bbbbbbbbbbbbbbbbbbbbb", "ccccccccccccccccccccc"] []).Nodup ∧
    (collectReviews 2 ["aaaaaaaaaaaaaaaaaaaaa", "aaaaaaaaaaaaaaaaaaaaa",
        "bbbbbbbbbbbbbbbbbbbbb", "ccccccccccccccccccccc"] []).length ≤ 2 :=
  C2_collect_first_surviving _ 2 (by decide)

/-- C3, counterexample: a candidate of exactly 20 characters (unchanged by
normalization) is excluded by the loop, although the claim says a 20-character
snippet is not excluded by the length rule. -/
theorem C3_counterexample :
    (normalizeReview "aaaaaaaaaaaaaaaaaaaa").length = 20 ∧
    collectReviews 2 ["aaaaaaaaaaaaaaaaaaaa"] [] = [] := by
  refine ⟨by decide, by decide⟩

/-- C3, amended: the loop first strips "READ MORE" and trims whitespace, and
then keeps a (non-duplicate) candidate iff the resulting text has strictly
more than 20 characters — the threshold is the hard-coded strict comparison
`len(text) > 20`, so a snippet of exactly 20 characters is excluded and 21
characters is the minimum kept; every returned entry has more than 20
characters. -/
theorem C3_length_threshold (count : Nat) (h : 1 ≤ count) :
    (∀ b : String, collectReviews count [b] [] =
      if 20 < (normalizeReview b).length then [normalizeReview b] else []) ∧
    (∀ (blocks : List String) (t : String),
      t ∈ collectReviews count blocks [] → 20 < t.length) := by
  constructor
  · intro b
    have heq := collectReviews_eq_take count [b] [] (by simpa using h)
    rw [heq]
    by_cases hb : 20 < (normalizeReview b).length
    · have hne : normalizeReview b ≠ "" := by
        intro he
        rw [he] at hb
        exact absurd hb (by decide)
      have hs : survivingReviews [b] [] = [normalizeReview b] := by
        have hcond : normalizeReview b ≠ "" ∧ normalizeReview b ∉ ([] : List String) ∧
            20 < (normalizeReview b).length := ⟨hne, by simp, hb⟩
        simp only [survivingReviews, if_pos hcond, List.nil_append]
      rw [hs, if_pos hb]
      cases count with
      | zero => exact absurd h (by decide)
      | succ n => simp
    · have hs : survivingReviews [b] [] = [] := by
        simp only [survivingReviews]
        rw [if_neg]
        rintro ⟨_, _, h3⟩
        exact hb h3
      rw [hs, if_neg hb]
      simp
  · intro blocks t ht
    have heq := collectReviews_eq_take count blocks [] (by simpa using h)
    rw [heq] at ht
    exact survivingReviews_length_gt blocks [] (by simp) t
      ((List.take_sublist _ _).subset ht)

/-- C3, witness: the amended theorem at `count = 2` applied to a 21-character
candidate, which is kept. -/
theorem C3_witness :
    collectReviews 2 ["aaaaaaaaaaaaaaaaaaaaa"] [] = ["aaaaaaaaaaaaaaaaaaaaa"] ∧
    20 < ("aaaaaaaaaaaaaaaaaaaaa" : String).length := by
  have h := C3_length_threshold 2 (by decide)
  exact ⟨(h.1 "aaaaaaaaaaaaaaaaaaaaa").trans (by decide), by decide⟩

/-- C4: the collected reviews (first five) are joined with " || "; when the
joined string is empty — in particular when no reviews were collected — the
`top_reviews` field is the sentinel "No detailed reviews available.", so the
field is always a non-empty string. -/
theorem C4_top_reviews_sentinel (l : List String) :
    formatTopReviews l ≠ "" ∧
    (l = [] → formatTopReviews l = "No detailed reviews available.") ∧
    (" || ".intercalate (l.take 5) ≠ "" →
      formatTopReviews l = " || ".intercalate (l.take 5)) := by
  refine ⟨?_, ?_, ?_⟩
  · simp only [formatTopReviews]
    by_cases h : " || ".intercalate (l.take 5) = ""
    · rw [if_pos h]; decide
    · rw [if_neg h]; exact h
  · intro hl
    subst hl
    decide
  · intro h
    simp only [formatTopReviews]
    rw [if_neg h]

/-- C4, witness: the theorem at the empty review set. -/
theorem C4_witness :
    formatTopReviews [] = "No detailed reviews available." ∧
    formatTopReviews [] ≠ "" :=
  ⟨(C4_top_reviews_sentinel []).2.1 rfl, (C4_top_reviews_sentinel []).1⟩

/-- The raw metadata item of the C5 scenario. -/
def c5Item : RawMetaItem where
  parent_asin := some "B001"
  title := some "Great Phone Case"
  price := some (.vStr "9.99")
  average_rating := some (.vFloat 45 1)
  rating_number := some (.vInt 120)

/-- The product entry of the C5 scenario after the candidate reviews have
been collected. -/
def c5Entry : ProductEntry :=
  { mkEntry c5Item "B001" "Great Phone Case" with
    reviews_list := ["5⭐ works great", "5⭐ works great", "1⭐ broke fast"] }

/-- C5, counterexample: on the scenario's input the assembled `top_reviews`
keeps the duplicate review — `stream_amazon_data` has no deduplication — so
it differs from the claimed "5⭐ works great || 1⭐ broke fast". -/
theorem C5_counterexample :
    (assembleRow c5Entry).top_reviews =
      "5⭐ works great || 5⭐ works great || 1⭐ broke fast" ∧
    ("5⭐ works great || 5⭐ works great || 1⭐ broke fast" : String) ≠
      "5⭐ works great || 1⭐ broke fast" := by
  refine ⟨by decide, by decide⟩

/-- C5, amended: on the scenario's raw item the first pass selects the
product with id "B001", title "Great Phone Case", price "9.99", rating 4.5
and total_reviews 120, and assembly joins the first five collected reviews
as-is with " || " — without deduplication or a minimum-length filter — so
the record keeps the duplicate:
"5⭐ works great || 5⭐ works great || 1⭐ broke fast". -/
theorem C5_scenario_record :
    selectProducts MAX_PRODUCTS [c5Item] [] =
      [("B001", mkEntry c5Item "B001" "Great Phone Case")] ∧
    assembleRow c5Entry =
      { product_id := "B001", product_title := "Great Phone Case",
        rating := .vFloat 45 1, total_reviews := .vInt 120,
        price := .vStr "9.99",
        top_reviews := "5⭐ works great || 5⭐ works great || 1⭐ broke fast" } := by
  refine ⟨by decide, by decide⟩

/-- `get_safe_value` never returns the NaN marker when its default is not
NaN. -/
theorem get_safe_value_ne_nan (o : Option PyVal) (d : PyVal) (hd : d ≠ .vNaN) :
    get_safe_value o d ≠ .vNaN := by
  match o with
  | none => simpa [get_safe_value] using hd
  | some .vNaN => simpa [get_safe_value] using hd
  | some (.vStr s) => simp [get_safe_value]
  | some (.vInt n) => simp [get_safe_value]
  | some (.vFloat m e) => simp [get_safe_value]

/-- The row of the C6 counterexample: the `product_title` column is present
but its value is NaN. -/
def c6Row : Row where
  product_id := .vStr "p1"
  product_title := some .vNaN
  rating := some .vNaN
  total_reviews := none
  price := some (.vStr "9.99")
  top_reviews := some (.vStr "nice")

/-- C6, counterexample: a NaN `product_title` is not replaced by the claimed
default "Unknown"; `transform_data` stringifies it to "nan" (`get_safe_value`
is not applied to that column, only the absent-column default of `row.get`
is). -/
theorem C6_counterexample :
    (transformRow c6Row).product_title = "nan" ∧
    ("nan" : String) ≠ "Unknown" := by
  refine ⟨by decide, by decide⟩

/-- C6, amended: `transform_data` emits exactly one document per row, with
content equal to the row's `top_reviews` value; missing/NaN values of
rating, total_reviews, price and content are replaced by the defaults 0.0,
0, "N/A" and "", and the emitted rating and total_reviews are never the NaN
marker; `product_title`, however, falls back to "Unknown" only when the
column is absent — a present-but-NaN title is stringified to "nan". -/
theorem C6_transform_defaults (rows : List Row) (r : Row) :
    (transform_data rows).length = rows.length ∧
    ((r.rating = none ∨ r.rating = some .vNaN) →
      (transformRow r).rating = .vFloat 0 0) ∧
    ((r.total_reviews = none ∨ r.total_reviews = some .vNaN) →
      (transformRow r).total_reviews = .vInt 0) ∧
    ((r.price = none ∨ r.price = some .vNaN) → (transformRow r).price = "N/A") ∧
    ((r.top_reviews = none ∨ r.top_reviews = some .vNaN) →
      (transformRow r).content = "") ∧
    (r.product_title = none → (transformRow r).product_title = "Unknown") ∧
    (r.product_title = some .vNaN → (transformRow r).product_title = "nan") ∧
    (transformRow r).rating ≠ .vNaN ∧
    (transformRow r).total_reviews ≠ .vNaN ∧
    (∀ s, r.top_reviews = some (.vStr s) → (transformRow r).content = s) := by
  refine ⟨by simp [transform_data], ?_, ?_, ?_, ?_, ?_, ?_, ?_, ?_, ?_⟩
  · rintro (h | h) <;> simp [transformRow, get_safe_value, h]
  · rintro (h | h) <;> simp [transformRow, get_safe_value, h]
  · rintro (h | h) <;> simp [transformRow, get_safe_value, h, pyStr]
  · rintro (h | h) <;> simp [transformRow, get_safe_value, h, pyStr]
  · intro h; simp [transformRow, h, pyStr]
  · intro h; simp [transformRow, h, pyStr]
  · exact get_safe_value_ne_nan _ _ (by simp)
  · exact get_safe_value_ne_nan _ _ (by simp)
  · intro s h; simp [transformRow, get_safe_value, h, pyStr]

/-- The row of the C6 witness: absent rating/price/title columns, NaN
rating. -/
def c6wRow : Row where
  product_id := .vStr "p2"
  product_title := none
  rating := some .vNaN
  total_reviews := none
  price := none
  top_reviews := some (.vStr "good")

/-- C6, witness: the amended theorem at a concrete row with a NaN rating and
absent total_reviews, price and product_title columns. -/
theorem C6_witness :
    (transformRow c6wRow).rating = .vFloat 0 0 ∧
    (transformRow c6wRow).total_reviews = .vInt 0 ∧
    (transformRow c6wRow).price = "N/A" ∧
    (transformRow c6wRow).product_title = "Unknown" ∧
    (transformRow c6wRow).content = "good" := by
  obtain ⟨_, hrat, htot, hpr, _, htitle, _, _, _, hstr⟩ :=
    C6_transform_defaults [c6wRow] c6wRow
  exact ⟨hrat (Or.inr rfl), htot (Or.inl rfl), hpr (Or.inl rfl),
    htitle rfl, hstr "good" rfl⟩

/-- C7: `DataIngestion` initialization fails fast: when a required database
environment variable is unset the result is the `EnvironmentError` carrying
exactly the list of the unset variables (every missing variable is named in
it); when all variables are set but the prerequisite CSV is absent the
result is the `FileNotFoundError` whose message ends with the remediation
hint "Please run the converter script first.".  Both failures are returned
to the caller as errors, before any transformation or ingestion work. -/
theorem C7_init_fail_fast (env : String → Option String) (cwd : String)
    (fileExists : String → Bool) :
    ((required_vars.filter fun v => (env v).isNone) ≠ [] →
      initDataIngestion env cwd fileExists =
        .error (.envMissing (required_vars.filter fun v => (env v).isNone)) ∧
      ∀ v ∈ required_vars, env v = none →
        v ∈ required_vars.filter fun v => (env v).isNone) ∧
    ((∀ v ∈ required_vars, (env v).isSome) → fileExists (csvPath cwd) = false →
      initDataIngestion env cwd fileExists =
        .error (.fileNotFound ("CSV file not found at: " ++ csvPath cwd ++
          ". Please run the converter script first.")) ∧
      ∃ pre, ("CSV file not found at: " ++ csvPath cwd ++
          ". Please run the converter script first.") =
        pre ++ "Please run the converter script first.") := by
  constructor
  · intro hm
    have hne : (required_vars.filter fun v => (env v).isNone).isEmpty = false := by
      cases hfe : (required_vars.filter fun v => (env v).isNone).isEmpty
      · rfl
      · exact absurd (List.isEmpty_iff.1 hfe) hm
    refine ⟨?_, ?_⟩
    · simp [initDataIngestion, load_env_variables, hne]
    · intro v hv hnone
      exact List.mem_filter.2 ⟨hv, by simp [hnone]⟩
  · intro hall hfe
    have hm : (required_vars.filter fun v => (env v).isNone) = [] := by
      rw [List.filter_eq_nil_iff]
      intro v hv
      have := hall v hv
      simp [Option.isNone_iff_eq_none]
      exact Option.isSome_iff_exists.1 this |>.elim fun x hx => by simp [hx]
    refine ⟨?_, ?_⟩
    · simp [initDataIngestion, load_env_variables, hm, get_csv_path, hfe]
    · refine ⟨"CSV file not found at: " ++ csvPath cwd ++ ". ", ?_⟩
      have hsplit : (". Please run the converter script first." : String) =
          ". " ++ "Please run the converter script first." := by decide
      rw [hsplit, ← String.append_assoc]

/-- C7, witness: the theorem at an environment with no variable set (all
three named in the error) and at one fully set but with no CSV file. -/
theorem C7_witness :
    initDataIngestion (fun _ => none) "/app" (fun _ => true) =
      .error (.envMissing ["ASTRA_DB_API_ENDPOINT", "ASTRA_DB_APPLICATION_TOKEN",
        "ASTRA_DB_KEYSPACE"]) ∧
    initDataIngestion (fun _ => some "x") "/app" (fun _ => false) =
      .error (.fileNotFound
        "CSV file not found at: /app/data/product_reviews.csv. Please run the converter script first.") := by
  constructor
  · have h := (C7_init_fail_fast (fun _ => none) "/app" (fun _ => true)).1 (by decide)
    exact h.1.trans
      (congrArg (fun l => Except.error (IngestError.envMissing l)) (by decide))
  · have h := (C7_init_fail_fast (fun _ => some "x") "/app" (fun _ => false)).2
      (by decide) rfl
    exact h.1.trans
      (congrArg (fun m => Except.error (IngestError.fileNotFound m)) (by decide))

/-! ### Lemmas about the two-pass streamed join -/

/-- A dict upsert grows the association list by at most one entry. -/
theorem insertProduct_length_le (acc : List (String × ProductEntry)) (p : String)
    (e : ProductEntry) : (insertProduct acc p e).length ≤ acc.length + 1 := by
  unfold insertProduct
  split
  · simp
  · simp

/-- Once the cap is reached, the first pass consumes nothing further. -/
theorem selectProducts_stop (maxP : Nat) (l : List RawMetaItem)
    (acc : List (String × ProductEntry)) (h : maxP ≤ acc.length) :
    selectProducts maxP l acc = acc := by
  cases l with
  | nil => rfl
  | cons i rest => simp only [selectProducts, if_pos h]

/-- The first pass keeps the products dict within the cap. -/
theorem selectProducts_length_le (maxP : Nat) (l : List RawMetaItem) :
    ∀ acc : List (String × ProductEntry), acc.length ≤ maxP →
    (selectProducts maxP l acc).length ≤ maxP := by
  induction l with
  | nil => intro acc h; simpa [selectProducts] using h
  | cons i rest ih =>
    intro acc h
    by_cases hc : maxP ≤ acc.length
    · simpa only [selectProducts, if_pos hc] using h
    · simp only [selectProducts, if_neg hc]
      cases hv : validParent i with
      | none => exact ih acc h
      | some pt =>
        obtain ⟨p, t⟩ := pt
        have hl := insertProduct_length_le acc p (mkEntry i p t)
        exact ih _ (by omega)

/-- Records arriving after the cap has been reached do not change the
selected dict. -/
theorem selectProducts_append (maxP : Nat) (l1 l2 : List RawMetaItem) :
    ∀ acc : List (String × ProductEntry),
    maxP ≤ (selectProducts maxP l1 acc).length →
    selectProducts maxP (l1 ++ l2) acc = selectProducts maxP l1 acc := by
  induction l1 with
  | nil =>
    intro acc h
    simp only [List.nil_append, selectProducts]
    exact selectProducts_stop maxP l2 acc (by simpa [selectProducts] using h)
  | cons i rest ih =>
    intro acc h
    by_cases hc : maxP ≤ acc.length
    · simp only [List.cons_append, selectProducts, if_pos hc]
    · simp only [List.cons_append, selectProducts, if_neg hc] at h ⊢
      cases hv : validParent i with
      | none =>
        simp only [hv] at h ⊢
        exact ih acc h
      | some pt =>
        obtain ⟨p, t⟩ := pt
        simp only [hv] at h ⊢
        exact ih _ h

/-- The validity predicate of the first pass, spelled out: an item is
selected iff its parent asin is present and non-empty and its title is
present with more than 5 characters. -/
theorem validParent_iff (item : RawMetaItem) :
    (validParent item).isSome = true ↔
    (∃ p, item.parent_asin = some p ∧ p ≠ "") ∧
    (∃ t, item.title = some t ∧ 5 < t.length) := by
  unfold validParent
  cases hp : item.parent_asin with
  | none => simp
  | some p =>
    cases ht : item.title with
    | none => simp
    | some t =>
      have hred : (match some p, some t with
          | some p, some t => if p ≠ "" ∧ 5 < t.length then some (p, t) else none
          | _, _ => (none : Option (String × String))) =
          if p ≠ "" ∧ 5 < t.length then some (p, t) else none := rfl
      rw [hred]
      by_cases hcond : p ≠ "" ∧ 5 < t.length
      · rw [if_pos hcond]
        simp [hcond.1, hcond.2]
      · rw [if_neg hcond]
        constructor
        · intro h
          exact absurd h (by decide)
        · rintro ⟨⟨p', hp', hp'ne⟩, t', ht', ht'len⟩
          injection hp' with hpp
          injection ht' with htt
          subst hpp
          subst htt
          exact absurd ⟨hp'ne, ht'len⟩ hcond

/-- The indexed second-pass loop equals a fold over the `limit - i` prefix of
the review stream. -/
theorem attachAux_eq_foldl (limit : Nat) (revs : List RawReview) :
    ∀ (i : Nat) (prods : List (String × ProductEntry)),
    attachAux limit i revs prods = (revs.take (limit - i)).foldl attachOne prods := by
  induction revs with
  | nil => intro i prods; simp [attachAux]
  | cons r rest ih =>
    intro i prods
    by_cases h : limit ≤ i
    · have h0 : limit - i = 0 := by omega
      simp [attachAux, h, h0]
    · have hs : limit - i = (limit - (i + 1)) + 1 := by omega
      rw [hs, List.take_succ_cons, List.foldl_cons]
      simp only [attachAux, if_neg h]
      exact ih (i + 1) (attachOne prods r)

/-- Attaching a review never changes the key sequence of the products
dict. -/
theorem attachOne_keys (prods : List (String × ProductEntry)) (rev : RawReview) :
    (attachOne prods rev).map Prod.fst = prods.map Prod.fst := by
  cases hpa : rev.parent_asin with
  | none => simp [attachOne, hpa]
  | some p =>
    by_cases hmem : (prods.any fun q => q.1 = p) = true
    · by_cases ht : rev.text.getD "" = ""
      · simp [attachOne, hpa, hmem, ht]
      · simp only [attachOne, hpa, hmem, if_true, if_neg ht, addReview, List.map_map]
        refine List.map_congr_left ?_
        intro q _
        by_cases hq : q.1 = p
        · simp [hq]
        · simp [hq]
    · simp only [attachOne, hpa]
      rw [if_neg (by simpa using hmem)]

/-- A review whose parent asin is not a key of the selected dict is
dropped. -/
theorem attachOne_skip (prods : List (String × ProductEntry)) (rev : RawReview)
    (p : String) (hpa : rev.parent_asin = some p)
    (h : (prods.any fun q => q.1 = p) = false) : attachOne prods rev = prods := by
  simp only [attachOne, hpa]
  rw [if_neg (by simp [h])]

/-- C8: the two-pass bounds of `stream_amazon_data`: `MAX_PRODUCTS = 50` and
the scan cap is 50000; the selected dict never exceeds the cap and the first
pass ignores everything after the cap is reached; an item is selected iff
its parent asin is present (non-empty) and its title present with more than
5 characters; the second pass processes exactly the first `limit` records of
the review stream; attaching never adds a key, and a review whose parent is
not selected is dropped. -/
theorem C8_two_pass_bounds :
    MAX_PRODUCTS = 50 ∧ max_scan_limit = 50000 ∧
    (∀ (maxP : Nat) (items : List RawMetaItem),
      (selectProducts maxP items []).length ≤ maxP) ∧
    (∀ (maxP : Nat) (items more : List RawMetaItem),
      maxP ≤ (selectProducts maxP items []).length →
      selectProducts maxP (items ++ more) [] = selectProducts maxP items []) ∧
    (∀ item : RawMetaItem, (validParent item).isSome = true ↔
      (∃ p, item.parent_asin = some p ∧ p ≠ "") ∧
      (∃ t, item.title = some t ∧ 5 < t.length)) ∧
    (∀ (limit : Nat) (revs : List RawReview) (prods : List (String × ProductEntry)),
      attachReviews limit revs prods = (revs.take limit).foldl attachOne prods) ∧
    (∀ (prods : List (String × ProductEntry)) (rev : RawReview),
      (attachOne prods rev).map Prod.fst = prods.map Prod.fst) ∧
    (∀ (prods : List (String × ProductEntry)) (rev : RawReview) (p : String),
      rev.parent_asin = some p → (prods.any fun q => q.1 = p) = false →
      attachOne prods rev = prods) := by
  refine ⟨rfl, rfl, ?_, ?_, validParent_iff, ?_, attachOne_keys, attachOne_skip⟩
  · intro maxP items
    exact selectProducts_length_le maxP items [] (by simp)
  · intro maxP items more h
    exact selectProducts_append maxP items more [] h
  · intro limit revs prods
    simpa using attachAux_eq_foldl limit revs 0 prods

/-- A valid raw metadata item used in the C8 witness. -/
def c8Item : RawMetaItem where
  parent_asin := some "P1"
  title := some "Product One"
  price := none
  average_rating := none
  rating_number := none

/-- A raw review whose parent asin matches no selected product, used in the
C8 witness. -/
def c8Rev : RawReview where
  parent_asin := some "ZZZ"
  text := some "great"
  rating := none

/-- C8, witness: the theorem instantiated at cap 1 with a duplicate valid
item, at scan limit 2 over three reviews, and at a review whose parent is
not selected. -/
theorem C8_witness :
    (selectProducts 1 [c8Item, c8Item] []).length ≤ 1 ∧
    selectProducts 1 ([c8Item] ++ [c8Item]) [] = selectProducts 1 [c8Item] [] ∧
    (validParent c8Item).isSome = true ∧
    attachReviews 2 [c8Rev, c8Rev, c8Rev] [] =
      (([c8Rev, c8Rev, c8Rev].take 2).foldl attachOne []) ∧
    attachOne [("P1", mkEntry c8Item "P1" "Product One")] c8Rev =
      [("P1", mkEntry c8Item "P1" "Product One")] := by
  obtain ⟨_, _, hlen, happ, hvalid, hattach, _, hskip⟩ := C8_two_pass_bounds
  refine ⟨hlen 1 [c8Item, c8Item], happ 1 [c8Item] [c8Item] ?_, ?_,
    hattach 2 [c8Rev, c8Rev, c8Rev] [], hskip _ c8Rev "ZZZ" rfl (by decide)⟩
  · decide
  · exact (hvalid c8Item).2 ⟨⟨"P1", rfl, by decide⟩, ⟨"Product One", rfl, by decide⟩⟩

/-- C9, counterexample: when a step of the visit raises, `get_top_reviews`
returns the error sentinel "Error fetching reviews", not the claimed "no
reviews found" outcome (the string "No reviews found" is only returned for
non-http URLs and for visits that yield no surviving review). -/
theorem C9_counterexample :
    get_top_reviews (fun _ => .raised) "http://www.flipkart.com/p/item1" 2 =
      "Error fetching reviews" ∧
    ("Error fetching reviews" : String) ≠ "No reviews found" := by
  refine ⟨by decide, by decide⟩

/-- C9, amended: if any step of a product-detail visit raises,
`get_top_reviews` absorbs the exception — it neither propagates nor retries
— and short-circuits to the error sentinel "Error fetching reviews" for that
product; the per-product loop still yields exactly one row per extracted
product, each computed from that product's own data and visit, so one
product's failure does not block or corrupt the remaining products. -/
theorem C9_exception_absorbed (fetch : String → FetchOutcome) (url : String)
    (count : Nat) (h : strStartsWith url "http" = true)
    (hr : fetch url = .raised) :
    get_top_reviews fetch url count = "Error fetching reviews" ∧
    (∀ (review_count : Nat) (extracted : List ExtractedData),
      (scrapeRows fetch review_count extracted).length = extracted.length) ∧
    (∀ (review_count : Nat) (d : ExtractedData) (rest : List ExtractedData),
      scrapeRows fetch review_count (d :: rest) =
        [d.id, d.title, d.rating, d.reviews_count, d.price,
         get_top_reviews fetch d.link review_count] :: scrapeRows fetch review_count rest) := by
  refine ⟨?_, ?_, ?_⟩
  · simp [get_top_reviews, h, hr]
  · intro rc ex
    simp [scrapeRows]
  · intro rc d rest
    simp [scrapeRows]

/-- A browser-session oracle on which every visit raises, for the C9
witness. -/
def c9Fetch : String → FetchOutcome := fun _ => .raised

/-- C9, witness: the amended theorem at an always-raising session — the
failing product still produces a row and so does the one after it. -/
theorem C9_witness :
    get_top_reviews c9Fetch "http://www.flipkart.com/p/item2" 3 =
      "Error fetching reviews" ∧
    (scrapeRows c9Fetch 3
      [⟨"i1", "t1", "r1", "c1", "p1", "http://x"⟩,
       ⟨"i2", "t2", "r2", "c2", "p2", "http://y"⟩]).length = 2 := by
  obtain ⟨h1, h2, _⟩ := C9_exception_absorbed c9Fetch "http://www.flipkart.com/p/item2" 3
    (by decide) rfl
  exact ⟨h1, h2 3 _⟩

end ProdAssistant
